import Mathlib

/-!
Verification of the TikTok tap REST client (`tap_tiktok/client.py`).

The Python code is shallowly embedded: Python values occurring in the
configuration, request contexts and JSON response bodies are modelled by the
inductive type `PyVal`; Python dicts are association lists with first-match
lookup; fallible Python code (raised exceptions) is modelled with
`Except String`, the string carrying the exception message.
-/

set_option autoImplicit false

/-- Model of the Python values that flow through the client: `None`, booleans,
integers, strings, lists and dicts (JSON bodies decoded by `response.json()`
are exactly these). -/
inductive PyVal where
  | none : PyVal
  | bool : Bool → PyVal
  | int : Int → PyVal
  | str : String → PyVal
  | list : List PyVal → PyVal
  | dict : List (String × PyVal) → PyVal

/-- Python truthiness (`bool(v)`): `None` and `False` are falsy, numbers are
truthy iff nonzero, strings/lists/dicts are truthy iff nonempty. -/
def pyTruthy : PyVal → Bool
  | .none => false
  | .bool b => b
  | .int n => n != 0
  | .str s => s != ""
  | .list l => !l.isEmpty
  | .dict d => !d.isEmpty

/-- Test for the Python `is None` check. -/
def pyIsNone : PyVal → Bool
  | .none => true
  | _ => false

mutual

/-- Python `str(v)` coercion. -/
def pyStr : PyVal → String
  | .none => "None"
  | .bool b => if b then "True" else "False"
  | .int n => toString n
  | .str s => s
  | .list l => "[" ++ pyReprList l ++ "]"
  | .dict d => "\x7b" ++ pyReprDict d ++ "\x7d"

/-- Python `repr(v)`, as used by `str` on containers (string escaping inside
`repr` of a string is not modelled; identifiers in this client contain no
quotes). -/
def pyRepr : PyVal → String
  | .none => "None"
  | .bool b => if b then "True" else "False"
  | .int n => toString n
  | .str s => "\x27" ++ s ++ "\x27"
  | .list l => "[" ++ pyReprList l ++ "]"
  | .dict d => "\x7b" ++ pyReprDict d ++ "\x7d"

/-- Comma-separated reprs of the elements of a Python list. -/
def pyReprList : List PyVal → String
  | [] => ""
  | [x] => pyRepr x
  | x :: xs => pyRepr x ++ ", " ++ pyReprList xs

/-- Comma-separated `key: value` reprs of the items of a Python dict. -/
def pyReprDict : List (String × PyVal) → String
  | [] => ""
  | [(k, v)] => "\x27" ++ k ++ "\x27: " ++ pyRepr v
  | (k, v) :: xs => "\x27" ++ k ++ "\x27: " ++ pyRepr v ++ ", " ++ pyReprDict xs

end

/-- A Python dict with string keys (configuration, request contexts and JSON
objects), as an association list; lookups take the first match. -/
abbrev PyDict := List (String × PyVal)

/-- Python `d.get(key)` / `key in d`: first-match association-list lookup. -/
def dictGet : PyDict → String → Option PyVal
  | [], _ => Option.none
  | (k, v) :: rest, key => if k == key then some v else dictGet rest key

/-- Python `d[key] = v`: update the value in place if the key is present,
else append the new item (insertion order preserved). -/
def dictInsert (d : PyDict) (key : String) (v : PyVal) : PyDict :=
  if (dictGet d key).isSome then
    d.map fun p => if p.1 == key then (key, v) else p
  else
    d ++ [(key, v)]

/-- Python `{**a, **b}`: keys of `a` in order with values overridden by `b`,
followed by the keys of `b` not present in `a`, in `b` order. -/
def pyDictMerge (a b : PyDict) : PyDict :=
  (a.map fun p =>
    match dictGet b p.1 with
    | some v => (p.1, v)
    | Option.none => p) ++
  b.filter fun q => (dictGet a q.1).isNone

/-- Field access of `extract_jsonpath` path steps on a decoded JSON body:
an object yields its field (if any), anything else yields no match. -/
def jsonGetField (v : PyVal) (key : String) : Option PyVal :=
  match v with
  | .dict d => dictGet d key
  | _ => Option.none

/-- The tap configuration (`self.config`), a Python dict. -/
abbrev Config := PyDict

/-- A request context, a Python dict. -/
abbrev Ctx := PyDict

/-- Truthiness of a `config.get(key)` result (`None` for an absent key is
falsy). -/
def optTruthy : Option PyVal → Bool
  | some v => pyTruthy v
  | Option.none => false

/-- Python `s.strip()`: drop leading and trailing whitespace. -/
def pyStrip (s : String) : String :=
  ⟨((s.data.dropWhile Char.isWhitespace).reverse.dropWhile Char.isWhitespace).reverse⟩

namespace TikTokStream

/-- Message of the `RuntimeError` raised when no advertiser id is configured. -/
def missingAdvertiserMsg : String :=
  "Missing advertiser_id(s). Set `advertiser_ids` (list) or `advertiser_id` (string)."

/-- Embedding of `TikTokStream._configured_advertiser_ids`: a non-empty
`advertiser_ids` list yields the string coercions of its non-`None`,
non-blank elements; else a non-`None`, non-blank `advertiser_id` yields a
singleton; else a `RuntimeError` is raised. -/
def _configured_advertiser_ids (config : Config) : Except String (List String) :=
  let fallback : Except String (List String) :=
    match dictGet config "advertiser_id" with
    | some advertiser_id =>
        if !(pyIsNone advertiser_id) && pyStrip (pyStr advertiser_id) != "" then
          .ok [pyStr advertiser_id]
        else
          .error missingAdvertiserMsg
    | Option.none => .error missingAdvertiserMsg
  match dictGet config "advertiser_ids" with
  | some (PyVal.list advertiser_ids) =>
      if !advertiser_ids.isEmpty then
        .ok ((advertiser_ids.filter fun x =>
          !(pyIsNone x) && pyStrip (pyStr x) != "").map pyStr)
      else
        fallback
  | _ => fallback

/-- Embedding of `TikTokStream.get_records`: one full run of the inherited
record iteration (`super().get_records`, abstracted as `superGetRecords`)
per configured advertiser id, on a copy of the context carrying that id.
A `RuntimeError` from the id resolution propagates before any record is
yielded. -/
def get_records (superGetRecords : Ctx → List PyVal) (config : Config)
    (context : Option Ctx) : Except String (List PyVal) :=
  let base_ctx : Ctx := context.getD []
  match _configured_advertiser_ids config with
  | .error e => .error e
  | .ok ids =>
      .ok (ids.flatMap fun advertiser_id =>
        superGetRecords (dictInsert base_ctx "advertiser_id" (PyVal.str advertiser_id)))

/-- The `context and context.get("advertiser_id")` test of
`_resolve_advertiser_id`: the context value reached only when the context is
truthy (present and non-empty). -/
def _context_advertiser (context : Option Ctx) : Option PyVal :=
  match context with
  | some ctx => if ctx.isEmpty then Option.none else dictGet ctx "advertiser_id"
  | Option.none => Option.none

/-- `self._configured_advertiser_ids()[0]`: the first configured id; raises
the resolver error, or an `IndexError` on an empty resolved list. -/
def _first_configured_id (config : Config) : Except String String :=
  match _configured_advertiser_ids config with
  | .error e => .error e
  | .ok [] => .error "IndexError: list index out of range"
  | .ok (x :: _) => .ok x

/-- Embedding of `TikTokStream._resolve_advertiser_id`: prefer a truthy
context value; fall back to the first configured id. -/
def _resolve_advertiser_id (config : Config) (context : Option Ctx) :
    Except String String :=
  match _context_advertiser context with
  | some v => if pyTruthy v then .ok (pyStr v) else _first_configured_id config
  | Option.none => _first_configured_id config

/-- The computed HTTP headers: `User-Agent` (its raw configured value) is
present exactly when the `user_agent` key is configured. -/
structure Headers where
  userAgent : Option PyVal
  contentType : String
  accessToken : String

/-- Embedding of `TikTokStream.http_headers`: `User-Agent` only when
configured, then `Content-Type: application/json`, then `Access-Token` as
`str(self.config["access_token"])` (a `KeyError` when absent). -/
def http_headers (config : Config) : Except String Headers :=
  let userAgent : Option PyVal :=
    match dictGet config "user_agent" with
    | some v => some v
    | Option.none => Option.none
  match dictGet config "access_token" with
  | some tok =>
      .ok { userAgent := userAgent,
            contentType := "application/json",
            accessToken := pyStr tok }
  | Option.none => .error "KeyError: access_token"

/-- Embedding of `_get_page_info("$.data.page_info.page", json)`: the first
match of the JSON path, or no match. -/
def _get_page_info_page (json : PyVal) : Option PyVal :=
  (jsonGetField json "data").bind fun d =>
    (jsonGetField d "page_info").bind fun p => jsonGetField p "page"

/-- Embedding of `_get_page_info("$.data.page_info.total_page", json)`. -/
def _get_page_info_total (json : PyVal) : Option PyVal :=
  (jsonGetField json "data").bind fun d =>
    (jsonGetField d "page_info").bind fun p => jsonGetField p "total_page"

/-- Python `x or 0` applied to an extraction result: a falsy (or absent)
value is replaced by the integer `0`. -/
def pyOrZero (o : Option PyVal) : PyVal :=
  match o with
  | some v => if pyTruthy v then v else PyVal.int 0
  | Option.none => PyVal.int 0

/-- The numeric view Python uses for `<` between page values: ints are
themselves, bools compare as 0/1, anything else makes `<` raise `TypeError`. -/
def pyAsNum : PyVal → Option Int
  | .int n => some n
  | .bool b => some (if b then 1 else 0)
  | _ => Option.none

/-- Message of the `TypeError` raised by `<` on incomparable operands. -/
def cmpErrMsg : String :=
  "TypeError: unsupported operand types for comparison"

/-- Embedding of `TikTokStream.get_next_page_token`: extract the page and
total-page fields, default each falsy or absent value to 0 (`or 0`), and
return `page + 1` while `page < total_page`, else no token. -/
def get_next_page_token (response : PyVal) : Except String (Option Int) :=
  let current_page := pyOrZero (_get_page_info_page response)
  let total_pages := pyOrZero (_get_page_info_total response)
  match pyAsNum current_page, pyAsNum total_pages with
  | some c, some t => .ok (if c < t then some (c + 1) else Option.none)
  | _, _ => .error cmpErrMsg

/-- The URL parameter mapping built by `get_url_params`; `page = none` models
the omitted key. -/
structure UrlParams where
  advertiser_id : String
  page : Option Int
  filtering : String
  page_size : Nat
  deriving DecidableEq

/-- The `filtering` value when `include_deleted` is truthy
(`json.dumps({"primary_status": "STATUS_ALL"})`). -/
def filteringStatusAll : String :=
  "\x7b\"primary_status\": \"STATUS_ALL\"\x7d"

/-- The `filtering` value otherwise
(`json.dumps({"primary_status": "STATUS_NOT_DELETE"})`). -/
def filteringStatusNotDelete : String :=
  "\x7b\"primary_status\": \"STATUS_NOT_DELETE\"\x7d"

/-- Embedding of `TikTokStream.get_url_params`: resolve the advertiser id,
include `page` only for a truthy token, JSON-encode the `filtering` object
from the `include_deleted` flag, and fix `page_size` at 10. -/
def get_url_params (config : Config) (context : Option Ctx)
    (next_page_token : Option Int) : Except String UrlParams :=
  match _resolve_advertiser_id config context with
  | .error e => .error e
  | .ok adv =>
      .ok { advertiser_id := adv,
            page :=
              match next_page_token with
              | some t => if t != 0 then some t else Option.none
              | Option.none => Option.none,
            filtering :=
              if optTruthy (dictGet config "include_deleted") then
                filteringStatusAll
              else
                filteringStatusNotDelete,
            page_size := 10 }

end TikTokStream

namespace TikTokReportsStream

/-- Embedding of `TikTokReportsStream.post_process`:
`{**row["dimensions"], **row["metrics"]}`, raising `KeyError` on a missing
key and `TypeError` when an operand is not a mapping. -/
def post_process (row : PyVal) : Except String PyVal :=
  match row with
  | .dict r =>
      match dictGet r "dimensions" with
      | some (PyVal.dict dimensions) =>
          match dictGet r "metrics" with
          | some (PyVal.dict metrics) => .ok (.dict (pyDictMerge dimensions metrics))
          | some _ => .error "TypeError: argument after ** must be a mapping"
          | Option.none => .error "KeyError: metrics"
      | some _ => .error "TypeError: argument after ** must be a mapping"
      | Option.none => .error "KeyError: dimensions"
  | _ => .error "TypeError: row is not subscriptable"

/-- Embedding of `TikTokReportsStream.get_next_page_token`: the extracted
page and total-page values are compared raw, with no defaulting; `<` on an
absent (`None`) or non-numeric operand raises `TypeError`. -/
def get_next_page_token (response : PyVal) : Except String (Option Int) :=
  let page_match := TikTokStream._get_page_info_page response
  let total_pages_match := TikTokStream._get_page_info_total response
  match page_match, total_pages_match with
  | some current_page, some total_pages =>
      match TikTokStream.pyAsNum current_page, TikTokStream.pyAsNum total_pages with
      | some c, some t => .ok (if c < t then some (c + 1) else Option.none)
      | _, _ => .error TikTokStream.cmpErrMsg
  | _, _ => .error TikTokStream.cmpErrMsg

end TikTokReportsStream

/-- Records extracted at `$.data.list[*]` from a response body: the elements
of the `data.list` array, or nothing when the path is absent. -/
def extractRecords (response : PyVal) : List PyVal :=
  match (jsonGetField response "data").bind fun d => jsonGetField d "list" with
  | some (PyVal.list l) => l
  | _ => []

/-- Modelled from the spec: the inherited paginated fetch loop
(`super().get_records`, spec section 4.3), which is not in src/ (it lives in
the external SDK). Starting from an absent token, it requests a page, yields
the records extracted at `$.data.list[*]`, and repeats with the token
returned by `get_next_page_token` until that token is absent. `fuel` bounds
the recursion. -/
def paginatedRecords (respond : Option Int → PyVal) :
    Nat → Option Int → Except String (List PyVal)
  | 0, _ => .ok []
  | fuel + 1, token =>
      let response := respond token
      match TikTokStream.get_next_page_token response with
      | .error e => .error e
      | .ok Option.none => .ok (extractRecords response)
      | .ok (some t) =>
          match paginatedRecords respond fuel (some t) with
          | .error e => .error e
          | .ok rest => .ok (extractRecords response ++ rest)

/-- A response body carrying one record and a `page_info` object. -/
def mkPage (record : String) (page total : Int) : PyVal :=
  .dict [("data", .dict
    [("list", .list [.str record]),
     ("page_info", .dict [("page", .int page), ("total_page", .int total)])])]

/-- Two-page response sequence for tenant A. -/
def respondA : Option Int → PyVal
  | Option.none => mkPage "A-page1" 1 2
  | some 2 => mkPage "A-page2" 2 2
  | _ => PyVal.none

/-- Two-page response sequence for tenant B. -/
def respondB : Option Int → PyVal
  | Option.none => mkPage "B-page1" 1 2
  | some 2 => mkPage "B-page2" 2 2
  | _ => PyVal.none

/-- Responses routed by the advertiser id carried in the request context. -/
def respondFor (ctx : Ctx) : Option Int → PyVal :=
  match dictGet ctx "advertiser_id" with
  | some (.str "A") => respondA
  | some (.str "B") => respondB
  | _ => fun _ => PyVal.none

/-- A per-tenant fetch cycle running the paginated loop to exhaustion on the
two-page responses above. -/
def fetchAB (ctx : Ctx) : List PyVal :=
  (paginatedRecords (respondFor ctx) 4 Option.none).toOption.getD []

/-- Configuration listing the two tenants A and B. -/
def cfgAB : Config := [("advertiser_ids", .list [.str "A", .str "B"])]

/-- Configuration whose `advertiser_ids` list is non-empty but holds only a
blank element. -/
def cfgBlankIds : Config := [("advertiser_ids", PyVal.list [PyVal.str " "])]

/-- Configuration with a mixed `advertiser_ids` list: a string, a `None`, a
blank string and an integer. -/
def cfgListMixed : Config :=
  [("advertiser_ids", PyVal.list [.str "A", .none, .str " ", .int 7])]

/-- Configuration with only a scalar integer `advertiser_id`. -/
def cfgScalar : Config := [("advertiser_id", PyVal.int 42)]

/-- Configuration with no advertiser keys at all. -/
def cfgNoAdv : Config := [("access_token", PyVal.str "t")]

/-- Configuration with a single scalar advertiser id `A`. -/
def cfgSingleA : Config := [("advertiser_id", PyVal.str "A")]

/-- Request context whose `advertiser_id` is present but the empty string. -/
def ctxEmptyAdv : Ctx := [("advertiser_id", PyVal.str "")]

/-- Configuration with `include_deleted` set to `True`. -/
def cfgIncl : Config :=
  [("advertiser_id", PyVal.str "A"), ("include_deleted", PyVal.bool true)]

/-- Configuration carrying an integer access token and a user agent. -/
def cfgHeaders : Config :=
  [("access_token", PyVal.int 5), ("user_agent", PyVal.str "ua")]

/-- The report row of the spec example:
`{"dimensions": {"date": "2024-01-01"}, "metrics": {"clicks": 5}}`. -/
def rowExample : PyDict :=
  [("dimensions", PyVal.dict [("date", PyVal.str "2024-01-01")]),
   ("metrics", PyVal.dict [("clicks", PyVal.int 5)])]

/-! ## Helper lemmas -/

theorem pyAsNum_pyOrZero_int (o : Option Int) :
    TikTokStream.pyAsNum (TikTokStream.pyOrZero (o.map PyVal.int)) = some (o.getD 0) := by
  rcases o with _ | n
  · rfl
  · by_cases h : n = 0 <;>
      simp [TikTokStream.pyOrZero, TikTokStream.pyAsNum, pyTruthy, h]

/-! ## Claim theorems -/

/-- C1: the base variant's `get_next_page_token` extracts
`$.data.page_info.page` and `$.data.page_info.total_page`, treats an absent
value as 0, and returns `current_page + 1` exactly when
`current_page < total_page`, else no token. -/
theorem TikTokStream.get_next_page_token_spec (response : PyVal) (op ot : Option Int)
    (hp : TikTokStream._get_page_info_page response = op.map PyVal.int)
    (ht : TikTokStream._get_page_info_total response = ot.map PyVal.int) :
    TikTokStream.get_next_page_token response =
      .ok (if op.getD 0 < ot.getD 0 then some (op.getD 0 + 1) else Option.none) := by
  simp only [TikTokStream.get_next_page_token, hp, ht, pyAsNum_pyOrZero_int]

/-- Witness for C1 at the spec's two examples: page 1 of 3 yields token 2,
page 3 of 3 yields no token. -/
theorem TikTokStream.get_next_page_token_spec_witness :
    TikTokStream.get_next_page_token (mkPage "r" 1 3) = .ok (some 2) ∧
    TikTokStream.get_next_page_token (mkPage "r" 3 3) = .ok Option.none := by
  constructor
  · exact TikTokStream.get_next_page_token_spec (mkPage "r" 1 3) (some 1) (some 3) rfl rfl
  · exact TikTokStream.get_next_page_token_spec (mkPage "r" 3 3) (some 3) (some 3) rfl rfl

/-- C5: the report variant's `get_next_page_token` does not default absent
page-info values; when either extraction is absent, the raw comparison
raises an uncaught `TypeError` instead of returning a token or ending
pagination. -/
theorem TikTokReportsStream.get_next_page_token_absent_faults (response : PyVal)
    (h : TikTokStream._get_page_info_page response = Option.none ∨
         TikTokStream._get_page_info_total response = Option.none) :
    TikTokReportsStream.get_next_page_token response = .error TikTokStream.cmpErrMsg := by
  rcases h with h | h
  · simp only [TikTokReportsStream.get_next_page_token, h]
  · cases hp : TikTokStream._get_page_info_page response <;>
      simp only [TikTokReportsStream.get_next_page_token, h, hp]

/-- Witness for C5: a body with no `data` field has both extractions absent
and faults. -/
theorem TikTokReportsStream.get_next_page_token_absent_faults_witness :
    TikTokReportsStream.get_next_page_token (PyVal.dict []) =
      .error TikTokStream.cmpErrMsg :=
  TikTokReportsStream.get_next_page_token_absent_faults (PyVal.dict []) (Or.inl rfl)

/-- C2: with a non-empty `advertiser_ids` list the resolver returns the
string coercions of its non-null, non-blank elements in order; with that
list absent (or not a non-empty list) and a present, non-null, non-blank
`advertiser_id`, it returns that value's string form as a singleton. -/
theorem TikTokStream.configured_advertiser_ids_spec (cfg : Config) :
    (∀ l, dictGet cfg "advertiser_ids" = some (PyVal.list l) → l ≠ [] →
      TikTokStream._configured_advertiser_ids cfg =
        .ok ((l.filter fun x => !(pyIsNone x) && pyStrip (pyStr x) != "").map pyStr)) ∧
    (∀ v, (∀ l, dictGet cfg "advertiser_ids" = some (PyVal.list l) → l = []) →
      dictGet cfg "advertiser_id" = some v → pyIsNone v = false →
      pyStrip (pyStr v) ≠ "" →
      TikTokStream._configured_advertiser_ids cfg = .ok [pyStr v]) := by
  constructor
  · intro l hl hne
    obtain ⟨a, as, rfl⟩ := List.exists_cons_of_ne_nil hne
    simp only [TikTokStream._configured_advertiser_ids, hl, List.isEmpty_cons,
      Bool.not_false, if_true]
  · intro v hno hv hnone hblank
    have hfb :
        (match dictGet cfg "advertiser_id" with
          | some advertiser_id =>
              if !(pyIsNone advertiser_id) && pyStrip (pyStr advertiser_id) != "" then
                Except.ok [pyStr advertiser_id]
              else
                Except.error TikTokStream.missingAdvertiserMsg
          | Option.none => Except.error TikTokStream.missingAdvertiserMsg) =
          Except.ok [pyStr v] := by
      rw [hv]
      simp [hnone, bne_iff_ne, hblank]
    cases hids : dictGet cfg "advertiser_ids" with
    | none => simpa only [TikTokStream._configured_advertiser_ids, hids] using hfb
    | some w =>
      cases w with
      | list l =>
        have hl : l = [] := hno l hids
        subst hl
        simpa only [TikTokStream._configured_advertiser_ids, hids, List.isEmpty_nil,
          Bool.not_true, if_false] using hfb
      | none => simpa only [TikTokStream._configured_advertiser_ids, hids] using hfb
      | bool b => simpa only [TikTokStream._configured_advertiser_ids, hids] using hfb
      | int n => simpa only [TikTokStream._configured_advertiser_ids, hids] using hfb
      | str s => simpa only [TikTokStream._configured_advertiser_ids, hids] using hfb
      | dict d => simpa only [TikTokStream._configured_advertiser_ids, hids] using hfb

/-- Witness for C2: a mixed list keeps `"A"` and `"7"` (dropping the `None`
and the blank), and a scalar integer id yields `["42"]`. -/
theorem TikTokStream.configured_advertiser_ids_spec_witness :
    TikTokStream._configured_advertiser_ids cfgListMixed = .ok ["A", "7"] ∧
    TikTokStream._configured_advertiser_ids cfgScalar = .ok ["42"] := by
  constructor
  · have h := (TikTokStream.configured_advertiser_ids_spec cfgListMixed).1
      [.str "A", .none, .str " ", .int 7] rfl (List.cons_ne_nil _ _)
    exact h.trans (congrArg Except.ok (by decide))
  · have h := (TikTokStream.configured_advertiser_ids_spec cfgScalar).2
      (PyVal.int 42)
      (fun l h => by
        rw [show dictGet cfgScalar "advertiser_ids" = Option.none from rfl] at h
        exact Option.noConfusion h)
      rfl rfl (by decide)
    exact h

/-- C3: when neither a non-empty `advertiser_ids` list nor a non-null,
non-blank `advertiser_id` is configured, resolution raises the
missing-advertiser configuration error, and record iteration fails with
that error before yielding any record. -/
theorem TikTokStream.missing_advertiser_config_errors (cfg : Config)
    (superGetRecords : Ctx → List PyVal) (context : Option Ctx)
    (h1 : ∀ l, dictGet cfg "advertiser_ids" = some (PyVal.list l) → l = [])
    (h2 : ∀ v, dictGet cfg "advertiser_id" = some v →
      pyIsNone v = true ∨ pyStrip (pyStr v) = "") :
    TikTokStream._configured_advertiser_ids cfg =
      .error TikTokStream.missingAdvertiserMsg ∧
    TikTokStream.get_records superGetRecords cfg context =
      .error TikTokStream.missingAdvertiserMsg := by
  have hfb :
      (match dictGet cfg "advertiser_id" with
        | some advertiser_id =>
            if !(pyIsNone advertiser_id) && pyStrip (pyStr advertiser_id) != "" then
              Except.ok [pyStr advertiser_id]
            else
              Except.error TikTokStream.missingAdvertiserMsg
        | Option.none => Except.error TikTokStream.missingAdvertiserMsg) =
        Except.error TikTokStream.missingAdvertiserMsg := by
    cases hv : dictGet cfg "advertiser_id" with
    | none => rfl
    | some v =>
      rcases h2 v hv with h | h
      · simp [h]
      · simp [h]
  have hres : TikTokStream._configured_advertiser_ids cfg =
      .error TikTokStream.missingAdvertiserMsg := by
    cases hids : dictGet cfg "advertiser_ids" with
    | none => simpa only [TikTokStream._configured_advertiser_ids, hids] using hfb
    | some w =>
      cases w with
      | list l =>
        have hl : l = [] := h1 l hids
        subst hl
        simpa only [TikTokStream._configured_advertiser_ids, hids, List.isEmpty_nil,
          Bool.not_true, if_false] using hfb
      | none => simpa only [TikTokStream._configured_advertiser_ids, hids] using hfb
      | bool b => simpa only [TikTokStream._configured_advertiser_ids, hids] using hfb
      | int n => simpa only [TikTokStream._configured_advertiser_ids, hids] using hfb
      | str s => simpa only [TikTokStream._configured_advertiser_ids, hids] using hfb
      | dict d => simpa only [TikTokStream._configured_advertiser_ids, hids] using hfb
  exact ⟨hres, by simp only [TikTokStream.get_records, hres]⟩

/-- Witness for C3: a configuration with no advertiser keys makes both the
resolver and record iteration fail with the missing-advertiser error. -/
theorem TikTokStream.missing_advertiser_config_errors_witness :
    TikTokStream._configured_advertiser_ids cfgNoAdv =
      .error TikTokStream.missingAdvertiserMsg ∧
    TikTokStream.get_records (fun _ => [PyVal.str "r"]) cfgNoAdv Option.none =
      .error TikTokStream.missingAdvertiserMsg :=
  TikTokStream.missing_advertiser_config_errors cfgNoAdv (fun _ => [PyVal.str "r"])
    Option.none
    (fun l h => by
      rw [show dictGet cfgNoAdv "advertiser_ids" = Option.none from rfl] at h
      exact Option.noConfusion h)
    (fun v h => by
      rw [show dictGet cfgNoAdv "advertiser_id" = Option.none from rfl] at h
      exact Option.noConfusion h)

/-- C4 counterexample: with `advertiser_ids = [" "]` (a non-empty list whose
only element is blank) resolution silently succeeds with the empty sequence
and the stream yields no records and no error, contradicting the claim that
such a configuration cannot exist. -/
theorem TikTokStream.blank_advertiser_ids_silent_empty :
    TikTokStream._configured_advertiser_ids cfgBlankIds = .ok [] ∧
    TikTokStream.get_records (fun _ => [PyVal.str "record"]) cfgBlankIds
      Option.none = .ok [] :=
  ⟨rfl, rfl⟩

/-- C4 amended: resolution either fails with the missing-advertiser error or
returns a list (possibly empty, as the counterexample shows) of identifiers
whose stripped forms are all non-blank. -/
theorem TikTokStream.resolved_ids_nonblank_or_error (cfg : Config) :
    TikTokStream._configured_advertiser_ids cfg =
      .error TikTokStream.missingAdvertiserMsg ∨
    ∃ ids, TikTokStream._configured_advertiser_ids cfg = .ok ids ∧
      ∀ s ∈ ids, pyStrip s ≠ "" := by
  have hfb :
      (match dictGet cfg "advertiser_id" with
        | some advertiser_id =>
            if !(pyIsNone advertiser_id) && pyStrip (pyStr advertiser_id) != "" then
              Except.ok [pyStr advertiser_id]
            else
              Except.error TikTokStream.missingAdvertiserMsg
        | Option.none => Except.error TikTokStream.missingAdvertiserMsg) =
        Except.error TikTokStream.missingAdvertiserMsg ∨
      ∃ ids,
        (match dictGet cfg "advertiser_id" with
          | some advertiser_id =>
              if !(pyIsNone advertiser_id) && pyStrip (pyStr advertiser_id) != "" then
                Except.ok [pyStr advertiser_id]
              else
                Except.error TikTokStream.missingAdvertiserMsg
          | Option.none => Except.error TikTokStream.missingAdvertiserMsg) =
          Except.ok ids ∧ ∀ s ∈ ids, pyStrip s ≠ "" := by
    cases hv : dictGet cfg "advertiser_id" with
    | none => exact Or.inl rfl
    | some v =>
      by_cases hc : (!(pyIsNone v) && pyStrip (pyStr v) != "") = true
      · right
        refine ⟨[pyStr v], by simp [hv, hc], ?_⟩
        intro s hs
        have hs' : s = pyStr v := by simpa using hs
        subst hs'
        simp only [Bool.and_eq_true, bne_iff_ne] at hc
        exact hc.2
      · left
        simp only [Bool.not_eq_true] at hc
        simp [hv, hc]
  cases hids : dictGet cfg "advertiser_ids" with
  | none => simpa only [TikTokStream._configured_advertiser_ids, hids] using hfb
  | some w =>
    cases w with
    | list l =>
      cases l with
      | nil =>
        simpa only [TikTokStream._configured_advertiser_ids, hids, List.isEmpty_nil,
          Bool.not_true, if_false] using hfb
      | cons a as =>
        right
        refine ⟨((a :: as).filter fun x =>
            !(pyIsNone x) && pyStrip (pyStr x) != "").map pyStr, by
          simp only [TikTokStream._configured_advertiser_ids, hids, List.isEmpty_cons,
            Bool.not_false, if_true], ?_⟩
        intro s hs
        simp only [List.mem_map, List.mem_filter] at hs
        obtain ⟨x, ⟨hx, hpx⟩, rfl⟩ := hs
        simp only [Bool.and_eq_true, bne_iff_ne] at hpx
        exact hpx.2
    | none => simpa only [TikTokStream._configured_advertiser_ids, hids] using hfb
    | bool b => simpa only [TikTokStream._configured_advertiser_ids, hids] using hfb
    | int n => simpa only [TikTokStream._configured_advertiser_ids, hids] using hfb
    | str s => simpa only [TikTokStream._configured_advertiser_ids, hids] using hfb
    | dict d => simpa only [TikTokStream._configured_advertiser_ids, hids] using hfb

/-- C6: record iteration is exactly the concatenation, in resolver order, of
one full inherited fetch cycle per tenant, each run on a context copy
carrying that tenant id, with no deduplication. -/
theorem TikTokStream.get_records_concat (superGetRecords : Ctx → List PyVal)
    (cfg : Config) (context : Option Ctx) (ids : List String)
    (h : TikTokStream._configured_advertiser_ids cfg = .ok ids) :
    TikTokStream.get_records superGetRecords cfg context =
      .ok (ids.flatMap fun advertiser_id =>
        superGetRecords (dictInsert (context.getD []) "advertiser_id"
          (PyVal.str advertiser_id))) := by
  simp only [TikTokStream.get_records, h]

/-- Witness for C6: tenants A and B, each served two pages of one record by
the paginated loop, emit four records in order A-page1, A-page2, B-page1,
B-page2. -/
theorem TikTokStream.get_records_concat_witness :
    TikTokStream.get_records fetchAB cfgAB Option.none =
      .ok [PyVal.str "A-page1", PyVal.str "A-page2",
           PyVal.str "B-page1", PyVal.str "B-page2"] := by
  have h := TikTokStream.get_records_concat fetchAB cfgAB Option.none ["A", "B"] rfl
  exact h.trans (by rfl)

/-- C7 counterexample: with context `advertiser_id` present but equal to the
empty string and next-page token 0, the claim predicts
`advertiser_id = ""` and `page = 0`, but the code (Python truthiness tests)
falls back to the first configured id and omits `page`. -/
theorem TikTokStream.get_url_params_truthiness_cex :
    TikTokStream.get_url_params cfgSingleA (some ctxEmptyAdv) (some 0) ≠
      Except.ok { advertiser_id := "", page := some 0,
                  filtering := TikTokStream.filteringStatusNotDelete,
                  page_size := 10 } := by
  intro h
  have h2 : TikTokStream.get_url_params cfgSingleA (some ctxEmptyAdv) (some 0) =
      Except.ok { advertiser_id := "A", page := Option.none,
                  filtering := TikTokStream.filteringStatusNotDelete,
                  page_size := 10 } := rfl
  rw [h2] at h
  simp [TikTokStream.UrlParams.mk.injEq] at h

/-- C7 amended: `advertiser_id` is the context's value (coerced to string)
when the context is truthy and carries a truthy value, else the first
resolved tenant id; `page` is included exactly when the token is truthy
(present and nonzero); `filtering` follows `include_deleted`; `page_size`
is 10. -/
theorem TikTokStream.get_url_params_spec (cfg : Config) (context : Option Ctx)
    (tok : Option Int) :
    (∀ v, TikTokStream._context_advertiser context = some v → pyTruthy v = true →
      TikTokStream.get_url_params cfg context tok =
        .ok { advertiser_id := pyStr v,
              page := match tok with
                      | some t => if t != 0 then some t else Option.none
                      | Option.none => Option.none,
              filtering := if optTruthy (dictGet cfg "include_deleted") then
                  TikTokStream.filteringStatusAll
                else TikTokStream.filteringStatusNotDelete,
              page_size := 10 }) ∧
    (∀ x rest,
      (∀ v, TikTokStream._context_advertiser context = some v → pyTruthy v = false) →
      TikTokStream._configured_advertiser_ids cfg = .ok (x :: rest) →
      TikTokStream.get_url_params cfg context tok =
        .ok { advertiser_id := x,
              page := match tok with
                      | some t => if t != 0 then some t else Option.none
                      | Option.none => Option.none,
              filtering := if optTruthy (dictGet cfg "include_deleted") then
                  TikTokStream.filteringStatusAll
                else TikTokStream.filteringStatusNotDelete,
              page_size := 10 }) := by
  constructor
  · intro v hv ht
    simp only [TikTokStream.get_url_params, TikTokStream._resolve_advertiser_id,
      hv, ht, if_true]
  · intro x rest hfb hres
    cases hc : TikTokStream._context_advertiser context with
    | none =>
      simp only [TikTokStream.get_url_params, TikTokStream._resolve_advertiser_id,
        TikTokStream._first_configured_id, hc, hres]
    | some v =>
      have hv := hfb v hc
      simp only [TikTokStream.get_url_params, TikTokStream._resolve_advertiser_id,
        TikTokStream._first_configured_id, hc, hv, Bool.false_eq_true, if_false, hres]

/-- Witness for C7: a truthy context id `A` with token 2 yields
`advertiser_id = "A"`, `page = 2`, the not-delete filter and page size 10. -/
theorem TikTokStream.get_url_params_spec_witness :
    TikTokStream.get_url_params [] (some [("advertiser_id", PyVal.str "A")]) (some 2) =
      .ok { advertiser_id := "A", page := some 2,
            filtering := TikTokStream.filteringStatusNotDelete, page_size := 10 } := by
  have h := (TikTokStream.get_url_params_spec []
    (some [("advertiser_id", PyVal.str "A")]) (some 2)).1 (PyVal.str "A") rfl rfl
  exact h.trans (by rfl)

/-- C8: the `filtering` parameter is the JSON encoding of
`primary_status = STATUS_ALL` when `include_deleted` is truthy and of
`primary_status = STATUS_NOT_DELETE` otherwise (including when absent). -/
theorem TikTokStream.filtering_param_spec (cfg : Config) (context : Option Ctx)
    (tok : Option Int) (params : TikTokStream.UrlParams)
    (h : TikTokStream.get_url_params cfg context tok = .ok params) :
    params.filtering =
      if optTruthy (dictGet cfg "include_deleted") then TikTokStream.filteringStatusAll
      else TikTokStream.filteringStatusNotDelete := by
  cases hr : TikTokStream._resolve_advertiser_id cfg context with
  | error e =>
    simp only [TikTokStream.get_url_params, hr] at h
    exact Except.noConfusion h
  | ok adv =>
    simp only [TikTokStream.get_url_params, hr, Except.ok.injEq] at h
    subst h
    rfl

/-- Witness for C8: with `include_deleted = True` configured, the filtering
string is the STATUS_ALL encoding. -/
theorem TikTokStream.filtering_param_spec_witness :
    (TikTokStream.UrlParams.mk "A" (some 2) TikTokStream.filteringStatusAll 10).filtering =
      if optTruthy (dictGet cfgIncl "include_deleted") then TikTokStream.filteringStatusAll
      else TikTokStream.filteringStatusNotDelete :=
  TikTokStream.filtering_param_spec cfgIncl Option.none (some 2) _ rfl

/-- C9: the computed headers always carry `Content-Type: application/json`
and `Access-Token` as the string coercion of the configured access token,
and carry `User-Agent` (the raw configured value) exactly when a
`user_agent` key is configured. -/
theorem TikTokStream.http_headers_spec (cfg : Config) (tok : PyVal)
    (h : dictGet cfg "access_token" = some tok) :
    TikTokStream.http_headers cfg =
      .ok { userAgent := dictGet cfg "user_agent",
            contentType := "application/json",
            accessToken := pyStr tok } := by
  cases hua : dictGet cfg "user_agent" <;>
    simp only [TikTokStream.http_headers, hua, h]

/-- Witness for C9: an integer access token is coerced to `"5"` and the
configured user agent is carried through. -/
theorem TikTokStream.http_headers_spec_witness :
    TikTokStream.http_headers cfgHeaders =
      .ok { userAgent := some (PyVal.str "ua"),
            contentType := "application/json",
            accessToken := "5" } := by
  have h := TikTokStream.http_headers_spec cfgHeaders (PyVal.int 5) rfl
  exact h.trans (by rfl)

theorem dictGet_append (a b : PyDict) (k : String) :
    dictGet (a ++ b) k =
      match dictGet a k with
      | some v => some v
      | Option.none => dictGet b k := by
  induction a with
  | nil => rfl
  | cons p rest ih =>
    obtain ⟨pk, pv⟩ := p
    by_cases h : pk == k <;> simp [dictGet, h, ih]

theorem dictGet_map_override (d m : PyDict) (k : String) :
    dictGet (d.map fun p =>
        match dictGet m p.1 with
        | some v => (p.1, v)
        | Option.none => p) k =
      match dictGet d k with
      | some v => some ((dictGet m k).getD v)
      | Option.none => Option.none := by
  induction d with
  | nil => rfl
  | cons p rest ih =>
    obtain ⟨pk, pv⟩ := p
    by_cases h : pk == k
    · have hk : pk = k := by simpa using h
      subst hk
      cases hm : dictGet m pk <;> simp [dictGet, hm]
    · cases hm : dictGet m pk <;> simp [dictGet, hm, h, ih]

theorem dictGet_filter_not_in (d m : PyDict) (k : String) :
    dictGet (m.filter fun q => (dictGet d q.1).isNone) k =
      if (dictGet d k).isNone then dictGet m k else Option.none := by
  induction m with
  | nil => simp [dictGet]
  | cons q rest ih =>
    obtain ⟨qk, qv⟩ := q
    by_cases hk : qk == k
    · have hk' : qk = k := by simpa using hk
      subst hk'
      cases hq : (dictGet d qk).isNone <;> simp [dictGet, List.filter, hq, ih]
    · cases hq : (dictGet d qk).isNone <;> simp [dictGet, List.filter, hq, hk, ih]

theorem dictGet_pyDictMerge (d m : PyDict) (k : String) :
    dictGet (pyDictMerge d m) k =
      match dictGet m k with
      | some v => some v
      | Option.none => dictGet d k := by
  unfold pyDictMerge
  rw [dictGet_append, dictGet_map_override, dictGet_filter_not_in]
  cases hd : dictGet d k <;> cases hm : dictGet m k <;> simp [hd, hm]

/-- C10: on a row carrying `dimensions` and `metrics` sub-mappings, the
report variant's `post_process` returns their flat merge, and on key
collision the value from `metrics` wins over the one from `dimensions`. -/
theorem TikTokReportsStream.post_process_merge (r d m : PyDict)
    (hd : dictGet r "dimensions" = some (PyVal.dict d))
    (hm : dictGet r "metrics" = some (PyVal.dict m)) :
    TikTokReportsStream.post_process (PyVal.dict r) =
      .ok (PyVal.dict (pyDictMerge d m)) ∧
    ∀ k, dictGet (pyDictMerge d m) k =
      match dictGet m k with
      | some v => some v
      | Option.none => dictGet d k := by
  constructor
  · simp only [TikTokReportsStream.post_process, hd, hm]
  · intro k
    exact dictGet_pyDictMerge d m k

/-- Witness for C10 at the spec's example row: dimensions and metrics merge
into one flat mapping. -/
theorem TikTokReportsStream.post_process_merge_witness :
    TikTokReportsStream.post_process (PyVal.dict rowExample) =
      .ok (PyVal.dict [("date", PyVal.str "2024-01-01"),
                       ("clicks", PyVal.int 5)]) := by
  have h := (TikTokReportsStream.post_process_merge rowExample
    [("date", PyVal.str "2024-01-01")] [("clicks", PyVal.int 5)] rfl rfl).1
  exact h.trans (by rfl)
